import Mathlib

/-!
Verification of the cloud-SQLite locking and checkout/checkin synchronization
core of the `lndb` repository (`lamindb_setup`), against its natural-language
specification.

The embedding is shallow: the control flow of
`lamindb_setup/core/_settings_instance.py` (`_update_cloud_sqlite_file`,
`_update_local_sqlite_file`, `_check_sqlite_lock`, `_cloud_sqlite_locker`,
`_sqlite_file`, `_load_db`) is translated into pure Lean functions over an
explicit state record; the blob store, the local cache and the lock marker
are fields of that state.  The module `cloud_sqlite_locker` (the lock-marker
protocol itself, the constant `EXPIRATION_TIME`, `empty_locker`,
`unlock_cloud_sqlite_upon_exception`) is imported but not present in the
sources; those definitions are modelled from the specification and are marked
as such in their doc comments.
-/

namespace Lndb

/-- Modelled from the spec: the lease window constant `EXPIRATION_TIME` of
the missing module `cloud_sqlite_locker`, in seconds, "on the order of days"
(spec 4.2); a representative value of seven days is used.  The callers in
`_settings_instance.py` only divide it by 3600 and by 24 to display days. -/
def EXPIRATION_TIME : Nat := 7 * 24 * 3600

/-- A lock marker: the persisted record next to the remote file naming the
current holder and the acquisition time (spec section 3). -/
structure Marker where
  holder : String
  ts : Nat
  deriving DecidableEq, Repr

/-- Modelled from the spec: a marker whose age `now - ts` exceeds the lease
window is expired ("age > leaseWindow => treated as absent for acquisition",
spec 4.2). -/
def Marker.expired (now : Nat) (m : Marker) : Bool :=
  decide (EXPIRATION_TIME < now - m.ts)

/-- Modelled from the spec: atomic view of `acquire` of the lock-marker
protocol (spec 4.1): if no marker exists, or the existing marker is expired,
or it already belongs to `ident`, write a fresh marker for `ident` (and the
re-read confirmation trivially succeeds for a single uninterleaved client);
a non-expired foreign marker means denial, leaving the marker in place.
Returns the new marker cell and the success flag of the handle. -/
def acquire (ident : String) (now : Nat) (cell : Option Marker) :
    Option Marker × Bool :=
  match cell with
  | none => (some ⟨ident, now⟩, true)
  | some m =>
      if m.expired now then (some ⟨ident, now⟩, true)
      else if m.holder = ident then (some ⟨ident, now⟩, true)
      else (some m, false)

/-- Modelled from the spec: `release` deletes the marker only if it currently
belongs to `ident`; deleting an absent or foreign marker is a no-op
(spec 4.1). -/
def release (ident : String) (cell : Option Marker) : Option Marker :=
  match cell with
  | none => none
  | some m => if m.holder = ident then none else some m

/-! ### Two racing clients, step-granular (claim C1)

The acquisition algorithm is optimistic (spec 4.1): read the marker, decide,
write, then re-read to confirm.  To cover interleavings of two clients the
write and the confirming re-read are separate steps. -/

/-- Phase of a client inside an acquisition attempt: either not mid-protocol,
or it has written its marker and still owes the confirming re-read. -/
inductive Phase where
  | idle
  | pending
  deriving DecidableEq, Repr

/-- Local state of one client: its identity, its protocol phase and its
in-process belief of holding the lock (the lock handle, spec section 3). -/
structure Client where
  ident : String
  phase : Phase
  hasLock : Bool
  deriving DecidableEq, Repr

/-- Global state of the race of two clients `a` and `b` against one lock
marker cell for one protected fileRef. -/
structure RaceState where
  marker : Option Marker
  now : Nat
  a : Client
  b : Client
  deriving DecidableEq, Repr

/-- Modelled from the spec: the read-and-decide step of one client's
acquisition (spec 4.1).  If the cell is empty, expired or own, the client
writes its marker and becomes pending; a non-expired foreign marker is a
denial, recorded in the handle. -/
def beginAcquire (c : Client) (now : Nat) (cell : Option Marker) :
    Client × Option Marker :=
  match cell with
  | none => ({ c with phase := .pending }, some ⟨c.ident, now⟩)
  | some m =>
      if m.expired now then ({ c with phase := .pending }, some ⟨c.ident, now⟩)
      else if m.holder = c.ident then
        ({ c with phase := .pending }, some ⟨c.ident, now⟩)
      else ({ c with hasLock := false }, some m)

/-- Modelled from the spec: the confirming re-read (spec 4.1): acquisition is
confirmed iff the cell now carries the client's own identity. -/
def confirmAcquire (c : Client) (cell : Option Marker) : Client :=
  match cell with
  | none => { c with phase := .idle, hasLock := false }
  | some m =>
      { c with phase := .idle, hasLock := decide (m.holder = c.ident) }

/-- Modelled from the spec: release by one client: delete the marker only if
own, drop the in-process belief. -/
def clientRelease (c : Client) (cell : Option Marker) :
    Client × Option Marker :=
  ({ c with hasLock := false }, release c.ident cell)

/-- One interleaved step of the two-client race: a begin/confirm/release by
either client, or the clock advancing. -/
inductive RaceStep : RaceState → RaceState → Prop where
  | beginA (s : RaceState) (h : s.a.phase = .idle) :
      RaceStep s { s with a := (beginAcquire s.a s.now s.marker).1,
                          marker := (beginAcquire s.a s.now s.marker).2 }
  | beginB (s : RaceState) (h : s.b.phase = .idle) :
      RaceStep s { s with b := (beginAcquire s.b s.now s.marker).1,
                          marker := (beginAcquire s.b s.now s.marker).2 }
  | confirmA (s : RaceState) (h : s.a.phase = .pending) :
      RaceStep s { s with a := confirmAcquire s.a s.marker }
  | confirmB (s : RaceState) (h : s.b.phase = .pending) :
      RaceStep s { s with b := confirmAcquire s.b s.marker }
  | releaseA (s : RaceState) :
      RaceStep s { s with a := (clientRelease s.a s.marker).1,
                          marker := (clientRelease s.a s.marker).2 }
  | releaseB (s : RaceState) :
      RaceStep s { s with b := (clientRelease s.b s.marker).1,
                          marker := (clientRelease s.b s.marker).2 }
  | tick (s : RaceState) :
      RaceStep s { s with now := s.now + 1 }

/-- Initial race state: no marker, clock at zero, both clients idle with no
lock belief. -/
def initRace (aId bId : String) : RaceState :=
  { marker := none, now := 0,
    a := { ident := aId, phase := .idle, hasLock := false },
    b := { ident := bId, phase := .idle, hasLock := false } }

/-- A client holds a valid lock: its last acquisition confirmed (the handle
says so) and the marker cell carries a non-expired marker of its identity. -/
def holdsValid (c : Client) (s : RaceState) : Prop :=
  c.hasLock = true ∧
    ∃ m, s.marker = some m ∧ m.holder = c.ident ∧ m.expired s.now = false

instance (c : Client) (s : RaceState) : Decidable (holdsValid c s) := by
  unfold holdsValid
  exact inferInstance

/-- The marker is one cell, so two distinct identities can never both own a
non-expired marker in the same state. -/
theorem holdsValid_unique (s : RaceState) (hne : s.a.ident ≠ s.b.ident) :
    ¬(holdsValid s.a s ∧ holdsValid s.b s) := by
  rintro ⟨⟨_, ma, hma, hholda, _⟩, ⟨_, mb, hmb, hholdb, _⟩⟩
  rw [hma] at hmb
  injection hmb with hm
  exact hne (hholda ▸ hholdb ▸ hm ▸ rfl)

/-- Steps never change the identity of either client. -/
theorem raceStep_idents {s t : RaceState} (h : RaceStep s t) :
    t.a.ident = s.a.ident ∧ t.b.ident = s.b.ident := by
  cases h <;>
    simp [beginAcquire, confirmAcquire, clientRelease] <;>
    (repeat' split) <;> simp

/-- Identities are preserved along any run. -/
theorem raceReach_idents {s t : RaceState}
    (h : Relation.ReflTransGen RaceStep s t) :
    t.a.ident = s.a.ident ∧ t.b.ident = s.b.ident := by
  induction h with
  | refl => exact ⟨rfl, rfl⟩
  | tail _ hstep ih =>
      have h2 := raceStep_idents hstep
      exact ⟨h2.1.trans ih.1, h2.2.trans ih.2⟩

/-- C1: For every pair of distinct identities A and B, after any sequence of
acquire/release steps (interleaved at read/write/confirm granularity) and
clock ticks starting from the empty store, there is no state in which both
clients hold a valid lock on the fileRef: at most one of them has a confirmed
acquisition whose marker is non-expired. -/
theorem mutual_exclusion (aId bId : String) (hne : aId ≠ bId) (s : RaceState)
    (hreach : Relation.ReflTransGen RaceStep (initRace aId bId) s) :
    ¬(holdsValid s.a s ∧ holdsValid s.b s) := by
  have hid := raceReach_idents hreach
  apply holdsValid_unique
  rw [hid.1, hid.2]
  exact hne

/-- Witness for C1 at concrete identities on a concrete run: client "A"
begins acquiring, confirms, and the resulting state does not have both
clients holding. -/
theorem mutual_exclusion_witness :
    ("A" : String) ≠ "B" ∧
      ¬(holdsValid (initRace "A" "B").a (initRace "A" "B") ∧
        holdsValid (initRace "A" "B").b (initRace "A" "B")) :=
  ⟨by decide,
    mutual_exclusion "A" "B" (by decide) (initRace "A" "B")
      Relation.ReflTransGen.refl⟩

/-! ### Orchestrator state (`_settings_instance.py`)

The state seen by `_update_local_sqlite_file`, `_update_cloud_sqlite_file`,
`_check_sqlite_lock` and `_load_db`: the lock marker cell, the remote SQLite
blob (`_sqlite_file`, content and modified time), the local cache file
(content and mtime), the in-process locker handle (`has_lock`, `_locked_by`),
the clock, and a trace of store effects used to state ordering properties. -/

/-- An observable store effect of the orchestrator. -/
inductive Effect where
  | lockE
  | downloadE
  | uploadE
  | unlockE
  deriving DecidableEq, Repr

/-- Orchestrator state: marker cell, remote blob, local cache, locker handle
fields, clock and effect trace. -/
structure St where
  marker : Option Marker
  remote : Option (String × Nat)
  cache : Option (String × Nat)
  hasLock : Bool
  lockedBy : Option String
  now : Nat
  log : List Effect
  deriving DecidableEq, Repr

/-- Modelled from the spec: `Locker.lock` of the missing module
`cloud_sqlite_locker`: run `acquire` against the marker cell, record the
outcome in the in-process handle (`has_lock`), and remember the holder of
record (`_locked_by`: self on success, the foreign holder on denial). -/
def lockOp (ident : String) (s : St) : St :=
  let r := acquire ident s.now s.marker
  if r.2 then
    { s with marker := r.1, hasLock := true, lockedBy := some ident,
             log := s.log ++ [.lockE] }
  else
    { s with marker := r.1, hasLock := false,
             lockedBy := r.1.map Marker.holder, log := s.log ++ [.lockE] }

/-- Modelled from the spec: `Locker.unlock`: `release` the marker (delete
only if own), drop the in-process belief. -/
def unlockOp (ident : String) (s : St) : St :=
  { s with marker := release ident s.marker, hasLock := false,
           log := s.log ++ [.unlockE] }

/-- The data interpolated into the `InstanceLockedException` message built by
`_check_sqlite_lock`: the holder uid (`locked_by`), the optional
handle/name resolved from the hub, and the day figure
`int(EXPIRATION_TIME/3600/24)`. -/
structure LockMsg where
  lockedBy : String
  handleName : Option (String × String)
  autoUnlockDays : Nat
  deriving DecidableEq, Repr

/-- The message payload of `_check_sqlite_lock`: it always carries
`locked_by` and the constant day figure `int(EXPIRATION_TIME/3600/24)`. -/
def lockMessage (lockedBy : String) (userInfo : Option (String × String)) :
    LockMsg :=
  { lockedBy := lockedBy, handleName := userInfo,
    autoUnlockDays := EXPIRATION_TIME / 3600 / 24 }

/-- `InstanceSettings._check_sqlite_lock`: if the locker does not hold the
lock, raise `InstanceLockedException` (returned as `some msg`) built from
`locker._locked_by` and the hub lookup result; otherwise pass. -/
def check_sqlite_lock (userInfo : Option (String × String)) (s : St) :
    Option LockMsg :=
  if s.hasLock then none
  else some (lockMessage (s.lockedBy.getD "") userInfo)

/-- Modelled from the spec: `UPath.synchronize` (the upath module is not in
the sources): if the remote is newer than the local cache or the local copy
is absent, download the remote into the cache and stamp the local mtime with
the remote mtime; a missing remote or a fresh cache means no transfer. -/
def synchronize (s : St) : St :=
  match s.remote with
  | none => s
  | some (c, mt) =>
      match s.cache with
      | none => { s with cache := some (c, mt), log := s.log ++ [.downloadE] }
      | some (_, lmt) =>
          if lmt < mt then
            { s with cache := some (c, mt), log := s.log ++ [.downloadE] }
          else s

/-- Does `synchronize` transfer: remote present and (cache absent or cache
mtime older than remote mtime). -/
def needsDownload (s : St) : Bool :=
  match s.remote, s.cache with
  | none, _ => false
  | some _, none => true
  | some (_, mt), some (_, lmt) => decide (lmt < mt)

/-- `InstanceSettings._update_local_sqlite_file` (checkout): when the
instance is a cloud-SQLite instance, optionally lock the cloud SQLite and
check the lock (raising `InstanceLockedException`, returned as the second
component, before any download), then synchronize the remote file into the
local cache; otherwise do nothing. -/
def update_local_sqlite_file (isCloud lockFlag : Bool) (ident : String)
    (userInfo : Option (String × String)) (s : St) : St × Option LockMsg :=
  if isCloud then
    if lockFlag then
      let s1 := lockOp ident s
      match check_sqlite_lock userInfo s1 with
      | some m => (s1, some m)
      | none => (synchronize s1, none)
    else (synchronize s, none)
  else (s, none)

/-- `InstanceSettings._update_cloud_sqlite_file` (checkin): when the instance
is a cloud-SQLite instance, upload the local cache to the remote location
(its new modified time is the current clock), stamp the cache mtime with the
new remote mtime (`os.utime`), then unlock if requested; a missing cache file
is an I/O failure (`none`); otherwise do nothing. -/
def update_cloud_sqlite_file (isCloud unlockFlag : Bool) (ident : String)
    (s : St) : Option St :=
  if isCloud then
    match s.cache with
    | none => none
    | some (c, _) =>
        let s1 := { s with remote := some (c, s.now), cache := some (c, s.now),
                           log := s.log ++ [.uploadE] }
        some (if unlockFlag then unlockOp ident s1 else s1)
  else some s

/-- Which locker object a caller gets: the real locker of
`cloud_sqlite_locker.get_locker` or the permissive no-op `empty_locker`. -/
inductive Locker where
  | realLocker
  | emptyLocker
  deriving DecidableEq, Repr

/-- Modelled from the spec: `empty_locker` of the missing module
`cloud_sqlite_locker`, the permissive no-op locker that always grants and
records nothing. -/
def empty_locker : Locker := .emptyLocker

/-- `InstanceSettings._cloud_sqlite_locker`: for a cloud-SQLite instance try
`get_locker`, and on `PermissionError` (the `Except.error` argument) degrade
to `empty_locker` with a warning; for any other instance return
`empty_locker`.  The function is total: the permission error is never
propagated. -/
def cloud_sqlite_locker (isCloudSqlite : Bool)
    (getLockerResult : Except Unit Locker) : Locker :=
  if isCloudSqlite then
    match getLockerResult with
    | .ok l => l
    | .error _ => empty_locker
  else empty_locker

/-- Modelled from the spec: the decorator
`unlock_cloud_sqlite_upon_exception` of the missing module
`cloud_sqlite_locker` (used by `init_vault` in `_init_instance_vault.py`):
run the wrapped body; on any failure perform the unlock step (skipping the
upload) and re-raise the original failure unmodified. -/
def unlock_cloud_sqlite_upon_exception {α : Type} (ident : String)
    (body : St → St × Except String α) (s : St) : St × Except String α :=
  match body s with
  | (s1, .ok a) => (s1, .ok a)
  | (s1, .error e) => (unlockOp ident s1, .error e)

/-- Outcome of `InstanceSettings._load_db`: the legacy-rename
`RuntimeError`, the `(False, "SQLite file ... does not exist")` return, the
`InstanceLockedException`, or the `(True, "")` success. -/
inductive LoadOutcome where
  | legacyRenameError
  | noSqliteFile
  | locked (m : LockMsg)
  | loaded
  deriving DecidableEq, Repr

/-- `InstanceSettings._load_db`: if the dialect is sqlite and the sqlite file
does not exist, fail early (with a rename error if the legacy name-based file
exists); otherwise lock in all cases except if `do_not_lock_for_laminapp_admin`
is true and the user handle is `laminapp-admin`, and sync down the local
sqlite file. -/
def load_db (dialectIsSqlite legacyExists isCloud : Bool)
    (doNotLockForLaminappAdmin : Bool) (handle ident : String)
    (userInfo : Option (String × String)) (s : St) : St × LoadOutcome :=
  if dialectIsSqlite && s.remote.isNone then
    if legacyExists then (s, .legacyRenameError) else (s, .noSqliteFile)
  else
    let lockFlag := isCloud &&
      (!doNotLockForLaminappAdmin || handle != "laminapp-admin")
    match update_local_sqlite_file isCloud lockFlag ident userInfo s with
    | (s1, some m) => (s1, .locked m)
    | (s1, none) => (s1, .loaded)

/-! ### Paths (`_sqlite_file`, `_sqlite_file_local`) -/

/-- The inputs that determine the SQLite paths of an instance: the instance
id (its hex form), the instance name, the storage root and the local cache
root. -/
structure InstanceRef where
  idHex : String
  name : String
  storageRoot : String
  cacheRoot : String
  deriving DecidableEq, Repr

/-- Modelled from the spec: `StorageSettings.key_to_filepath` (the storage
settings module is not in the sources): the deterministic storage-root path
for a key. -/
def key_to_filepath (root key : String) : String := root ++ "/" ++ key

/-- Modelled from the spec: `StorageSettings.cloud_to_local_no_update`: the
deterministic local cache path of a remote blob, stable across process
restarts on one machine. -/
def cloud_to_local_no_update (cacheRoot remotePath : String) : String :=
  cacheRoot ++ "/" ++ remotePath

/-- `InstanceSettings._sqlite_file`: the storage-root path for the key
`f"{self.id.hex}.lndb"`, derived from the instance UUID. -/
def sqlite_file (i : InstanceRef) : String :=
  key_to_filepath i.storageRoot (i.idHex ++ ".lndb")

/-- `InstanceSettings._sqlite_file_local`: the deterministic local cache path
of `_sqlite_file`. -/
def sqlite_file_local (i : InstanceRef) : String :=
  cloud_to_local_no_update i.cacheRoot (sqlite_file i)

/-- The legacy name-based file checked by `_load_db`:
`storage.key_to_filepath(f"{self.name}.lndb")`. -/
def legacy_sqlite_file (i : InstanceRef) : String :=
  key_to_filepath i.storageRoot (i.name ++ ".lndb")

/-! ### Helper lemmas -/

/-- `synchronize` in closed form: download (stamping the cache with the
remote content and mtime) exactly when `needsDownload`. -/
theorem synchronize_eq (s : St) :
    synchronize s =
      if needsDownload s then
        { s with cache := s.remote, log := s.log ++ [.downloadE] }
      else s := by
  rcases hr : s.remote with _ | ⟨c, mt⟩ <;>
    rcases hc : s.cache with _ | ⟨c2, lmt⟩ <;>
      simp [synchronize, needsDownload, hr, hc]

/-- `lockOp` when the acquisition is granted. -/
theorem lockOp_grant (ident : String) (s : St)
    (h : (acquire ident s.now s.marker).2 = true) :
    lockOp ident s =
      { s with marker := (acquire ident s.now s.marker).1, hasLock := true,
               lockedBy := some ident, log := s.log ++ [.lockE] } := by
  simp [lockOp, h]

/-- `acquire` and `lockOp` when a non-expired foreign marker denies the
acquisition. -/
theorem lockOp_deny (ident : String) (s : St) (mk : Marker)
    (hm : s.marker = some mk) (hold : mk.holder ≠ ident)
    (hexp : mk.expired s.now = false) :
    acquire ident s.now s.marker = (some mk, false) ∧
      lockOp ident s =
        { s with marker := some mk, hasLock := false,
                 lockedBy := some mk.holder, log := s.log ++ [.lockE] } := by
  have hacq : acquire ident s.now s.marker = (some mk, false) := by
    simp [acquire, hm, hexp, hold]
  exact ⟨hacq, by simp [lockOp, hacq]⟩

/-! ### Claims C2-C5 -/

/-- This definition follows the specification's words rather than the source
("carries holder + remaining lease time"): the remaining lease time of a
marker acquired at `ts`, observed at `now`, expressed in days. -/
def specRemainingLeaseDays (now ts : Nat) : Nat :=
  (EXPIRATION_TIME - (now - ts)) / 86400

/-- A concrete denial scenario: a foreign marker (holder `bob`, acquired at
time 0) one day old, observed by `alice`. -/
def deniedSt : St :=
  { marker := some ⟨"bob", 0⟩, remote := some ("db", 5), cache := none,
    hasLock := false, lockedBy := none, now := 86400, log := [] }

/-- C2 counterexample: checkout denied by `bob`'s marker at one day of age
raises a message whose day figure is the full lease window
(`EXPIRATION_TIME/3600/24` = 7), which is not the remaining lease time
(6 days): the expiry estimate in the message is a constant, not the
remaining time of the current lease. -/
theorem checkout_denied_message_not_remaining_time :
    (update_local_sqlite_file true true "alice" none deniedSt).2 =
        some (lockMessage "bob" none) ∧
      (lockMessage "bob" none).autoUnlockDays ≠
        specRemainingLeaseDays deniedSt.now 0 := by
  constructor
  · decide
  · decide

/-- C2 (amended): for a cloud-SQLite instance, when checkout finds the lock
held by another identity (non-expired foreign marker), it raises
`InstanceLockedException` carrying the holder's identity and an expiry
estimate equal to the full lease window `EXPIRATION_TIME` expressed in days,
and it raises before any download: the cache is untouched and the trace gains
only the lock attempt. -/
theorem checkout_denied_raises_before_download (ident : String)
    (userInfo : Option (String × String)) (s : St) (mk : Marker)
    (hm : s.marker = some mk) (hold : mk.holder ≠ ident)
    (hexp : mk.expired s.now = false) :
    update_local_sqlite_file true true ident userInfo s =
        (lockOp ident s, some (lockMessage mk.holder userInfo)) ∧
      (lockOp ident s).log = s.log ++ [.lockE] ∧
      (lockOp ident s).cache = s.cache ∧
      (lockMessage mk.holder userInfo).lockedBy = mk.holder ∧
      (lockMessage mk.holder userInfo).autoUnlockDays =
        EXPIRATION_TIME / 3600 / 24 := by
  obtain ⟨hacq, hlock⟩ := lockOp_deny ident s mk hm hold hexp
  refine ⟨?_, ?_, ?_, rfl, rfl⟩
  · simp [update_local_sqlite_file, hlock, check_sqlite_lock, lockMessage]
  · rw [hlock]
  · rw [hlock]

/-- Witness for C2's amended theorem at the concrete denial scenario. -/
theorem checkout_denied_raises_before_download_witness :
    (deniedSt.marker = some ⟨"bob", 0⟩ ∧
        (Marker.holder ⟨"bob", 0⟩ : String) ≠ "alice" ∧
        Marker.expired deniedSt.now ⟨"bob", 0⟩ = false) ∧
      (update_local_sqlite_file true true "alice" none deniedSt =
          (lockOp "alice" deniedSt, some (lockMessage "bob" none)) ∧
        (lockOp "alice" deniedSt).log = deniedSt.log ++ [.lockE] ∧
        (lockOp "alice" deniedSt).cache = deniedSt.cache ∧
        (lockMessage "bob" none).lockedBy = "bob" ∧
        (lockMessage "bob" none).autoUnlockDays =
          EXPIRATION_TIME / 3600 / 24) :=
  ⟨⟨rfl, by decide, by decide⟩,
    checkout_denied_raises_before_download "alice" none deniedSt ⟨"bob", 0⟩
      rfl (by decide) (by decide)⟩

/-- C3: a client that can read but not write the lock-marker namespace
(`get_locker` raises `PermissionError`) gets the permissive no-op
`empty_locker` from `_cloud_sqlite_locker` instead of a propagated
permission failure, whatever the instance kind. -/
theorem cloud_sqlite_locker_degrades_on_permission_error
    (isCloudSqlite : Bool) :
    cloud_sqlite_locker isCloudSqlite (.error ()) = empty_locker := by
  cases isCloudSqlite <;> rfl

/-- C4: for an instance that is not a cloud-SQLite instance, checkout and
checkin leave the whole state unchanged (no lock recorded, nothing
downloaded or uploaded, no trace effect) and the locker used is the no-op
`empty_locker`. -/
theorem noncloud_checkout_checkin_noop (lockFlag unlockFlag : Bool)
    (ident : String) (userInfo : Option (String × String)) (s : St)
    (r : Except Unit Locker) :
    update_local_sqlite_file false lockFlag ident userInfo s = (s, none) ∧
      update_cloud_sqlite_file false unlockFlag ident s = some s ∧
      cloud_sqlite_locker false r = empty_locker :=
  ⟨rfl, rfl, rfl⟩

/-- C5: for a cloud-SQLite instance whose acquisition is granted, checkout
acquires the lock first (the trace gains the lock attempt, the handle
confirms), raises nothing, and then downloads the remote file into the local
cache — stamping the cache with the remote content and mtime — exactly when
the remote is newer or the local copy is absent. -/
theorem checkout_lock_then_conditional_download (ident : String)
    (userInfo : Option (String × String)) (s : St)
    (hGrant : (acquire ident s.now s.marker).2 = true) :
    update_local_sqlite_file true true ident userInfo s =
        (if needsDownload s then
           { lockOp ident s with cache := s.remote,
                                 log := (lockOp ident s).log ++ [.downloadE] }
         else lockOp ident s, none) ∧
      (lockOp ident s).log = s.log ++ [.lockE] ∧
      (lockOp ident s).hasLock = true := by
  have hlock := lockOp_grant ident s hGrant
  have hsync := synchronize_eq (lockOp ident s)
  have hneed : needsDownload (lockOp ident s) = needsDownload s := by
    rw [hlock]; simp [needsDownload]
  have hremote : (lockOp ident s).remote = s.remote := by rw [hlock]
  refine ⟨?_, by rw [hlock], by rw [hlock]⟩
  have hcheck : check_sqlite_lock userInfo (lockOp ident s) = none := by
    simp [check_sqlite_lock, hlock]
  simp only [update_local_sqlite_file, if_true, hcheck]
  rw [hsync, hneed, hremote]

/-- A concrete grantable checkout scenario: no marker, stale (absent)
cache. -/
def grantSt : St :=
  { marker := none, remote := some ("db", 5), cache := none,
    hasLock := false, lockedBy := none, now := 9, log := [] }

/-- Witness for C5 at the concrete grantable scenario. -/
theorem checkout_lock_then_conditional_download_witness :
    (acquire "alice" grantSt.now grantSt.marker).2 = true ∧
      (update_local_sqlite_file true true "alice" none grantSt =
          (if needsDownload grantSt then
             { lockOp "alice" grantSt with
                 cache := grantSt.remote,
                 log := (lockOp "alice" grantSt).log ++ [.downloadE] }
           else lockOp "alice" grantSt, none) ∧
        (lockOp "alice" grantSt).log = grantSt.log ++ [.lockE] ∧
        (lockOp "alice" grantSt).hasLock = true) :=
  ⟨by decide,
    checkout_lock_then_conditional_download "alice" none grantSt (by decide)⟩

/-! ### Claims C6-C10 -/

/-- Both outcomes of `lockOp` append exactly the lock attempt to the trace. -/
theorem lockOp_log (ident : String) (s : St) :
    (lockOp ident s).log = s.log ++ [.lockE] := by
  rcases h : (acquire ident s.now s.marker).2 <;> simp [lockOp, h]

/-- `synchronize` appends either nothing or exactly one download to the
trace. -/
theorem synchronize_log (s : St) :
    (synchronize s).log = s.log ∨
      (synchronize s).log = s.log ++ [.downloadE] := by
  rw [synchronize_eq]
  split
  · right; rfl
  · left; rfl

/-- C6: for a cloud-SQLite instance (concretely: free lock, remote present,
cache absent), checkout followed by checkin uploads the local cache to the
remote location, stamps the cache mtime with the new remote mtime, and only
then releases the lock: afterwards the remote content is byte-identical to
what was checked out, its mtime is refreshed to the upload time, the marker
is gone and the handle no longer holds, with the trace in the order
lock, download, upload, unlock. -/
theorem checkout_checkin_round_trip (ident : String)
    (userInfo : Option (String × String)) (s : St) (c : String) (rmt : Nat)
    (hmk : s.marker = none) (hr : s.remote = some (c, rmt))
    (hc : s.cache = none) :
    (update_local_sqlite_file true true ident userInfo s).2 = none ∧
      update_cloud_sqlite_file true true ident
          (update_local_sqlite_file true true ident userInfo s).1 =
        some { marker := none, remote := some (c, s.now),
               cache := some (c, s.now), hasLock := false,
               lockedBy := some ident, now := s.now,
               log := s.log ++ [.lockE, .downloadE, .uploadE, .unlockE] } := by
  constructor <;>
    simp [update_local_sqlite_file, lockOp, acquire, hmk, hr, hc,
      check_sqlite_lock, synchronize, update_cloud_sqlite_file, unlockOp,
      release]

/-- Witness for C6 at the concrete grantable scenario. -/
theorem checkout_checkin_round_trip_witness :
    (grantSt.marker = none ∧ grantSt.remote = some ("db", 5) ∧
        grantSt.cache = none) ∧
      ((update_local_sqlite_file true true "alice" none grantSt).2 = none ∧
        update_cloud_sqlite_file true true "alice"
            (update_local_sqlite_file true true "alice" none grantSt).1 =
          some { marker := none, remote := some ("db", grantSt.now),
                 cache := some ("db", grantSt.now), hasLock := false,
                 lockedBy := some "alice", now := grantSt.now,
                 log := grantSt.log ++
                   [.lockE, .downloadE, .uploadE, .unlockE] }) :=
  ⟨⟨rfl, rfl, rfl⟩,
    checkout_checkin_round_trip "alice" none grantSt "db" 5 rfl rfl rfl⟩

/-- C7: whatever body the guarded-invocation combinator
`unlock_cloud_sqlite_upon_exception` wraps, if the body fails then the unlock
step still runs on the body's final state (the trace gains exactly the
unlock, no upload), and the original error is re-raised unmodified. -/
theorem guarded_invocation_unlocks_and_reraises {α : Type} (ident : String)
    (body : St → St × Except String α) (s s1 : St) (e : String)
    (h : body s = (s1, .error e)) :
    unlock_cloud_sqlite_upon_exception ident body s =
        (unlockOp ident s1, .error e) ∧
      (unlockOp ident s1).log = s1.log ++ [.unlockE] ∧
      (unlockOp ident s1).hasLock = false := by
  unfold unlock_cloud_sqlite_upon_exception
  rw [h]
  exact ⟨rfl, rfl, rfl⟩

/-- Witness for C7: a body that fails immediately with error `boom`. -/
theorem guarded_invocation_unlocks_and_reraises_witness :
    ((fun (t : St) => (t, (.error "boom" : Except String Unit))) grantSt =
        (grantSt, .error "boom")) ∧
      (unlock_cloud_sqlite_upon_exception "alice"
            (fun (t : St) => (t, (.error "boom" : Except String Unit)))
            grantSt =
          (unlockOp "alice" grantSt, .error "boom") ∧
        (unlockOp "alice" grantSt).log = grantSt.log ++ [.unlockE] ∧
        (unlockOp "alice" grantSt).hasLock = false) :=
  ⟨rfl,
    guarded_invocation_unlocks_and_reraises "alice"
      (fun t => (t, .error "boom")) grantSt grantSt "boom" rfl⟩

/-- C8: a marker whose age `now - ts` exceeds the lease window is treated as
absent: acquisition by a new identity succeeds without any prior release,
writing a fresh marker for the new holder; and the lease window surfaced to
users in the lock message is the constant `EXPIRATION_TIME` expressed in
days. -/
theorem expired_marker_acquirable (mk : Marker) (now : Nat) (b : String)
    (_hforeign : mk.holder ≠ b) (hexp : EXPIRATION_TIME < now - mk.ts) :
    acquire b now (some mk) = (some ⟨b, now⟩, true) ∧
      (lockMessage mk.holder none).autoUnlockDays =
        EXPIRATION_TIME / 3600 / 24 := by
  have he : mk.expired now = true := by
    simpa [Marker.expired] using hexp
  exact ⟨by simp [acquire, he], rfl⟩

/-- Witness for C8: `B` acquires a marker of `A` aged one second past the
lease window. -/
theorem expired_marker_acquirable_witness :
    ((Marker.holder ⟨"A", 0⟩ : String) ≠ "B" ∧
        EXPIRATION_TIME < 604801 - (Marker.ts ⟨"A", 0⟩)) ∧
      (acquire "B" 604801 (some ⟨"A", 0⟩) = (some ⟨"B", 604801⟩, true) ∧
        (lockMessage (Marker.holder ⟨"A", 0⟩) none).autoUnlockDays =
          EXPIRATION_TIME / 3600 / 24) :=
  ⟨⟨by decide, by decide⟩,
    expired_marker_acquirable ⟨"A", 0⟩ 604801 "B" (by decide) (by decide)⟩

/-- C9: the remote SQLite blob path and its local cache path are
deterministic functions of the instance id (and storage/cache roots):
`_sqlite_file` is the storage-root path for the key `{id.hex}.lndb`, derived
from the instance UUID and independent of the instance name. -/
theorem sqlite_paths_deterministic (i j : InstanceRef)
    (hid : i.idHex = j.idHex) (hroot : i.storageRoot = j.storageRoot)
    (hcache : i.cacheRoot = j.cacheRoot) :
    sqlite_file i = sqlite_file j ∧
      sqlite_file_local i = sqlite_file_local j ∧
      sqlite_file i = i.storageRoot ++ "/" ++ (i.idHex ++ ".lndb") := by
  have h1 : sqlite_file i = sqlite_file j := by
    simp only [sqlite_file, key_to_filepath]
    rw [hid, hroot]
  refine ⟨h1, ?_, rfl⟩
  simp only [sqlite_file_local, cloud_to_local_no_update]
  rw [h1, hcache]

/-- Witness for C9: two instances with the same id and roots but different
names map to the same remote and local paths. -/
theorem sqlite_paths_deterministic_witness :
    (InstanceRef.idHex ⟨"deadbeef", "name-one", "s3-bucket", "home-cache"⟩ =
        InstanceRef.idHex ⟨"deadbeef", "name-two", "s3-bucket", "home-cache"⟩ ∧
      InstanceRef.storageRoot
          ⟨"deadbeef", "name-one", "s3-bucket", "home-cache"⟩ =
        InstanceRef.storageRoot
          ⟨"deadbeef", "name-two", "s3-bucket", "home-cache"⟩ ∧
      InstanceRef.cacheRoot
          ⟨"deadbeef", "name-one", "s3-bucket", "home-cache"⟩ =
        InstanceRef.cacheRoot
          ⟨"deadbeef", "name-two", "s3-bucket", "home-cache"⟩) ∧
      (sqlite_file ⟨"deadbeef", "name-one", "s3-bucket", "home-cache"⟩ =
          sqlite_file ⟨"deadbeef", "name-two", "s3-bucket", "home-cache"⟩ ∧
        sqlite_file_local
            ⟨"deadbeef", "name-one", "s3-bucket", "home-cache"⟩ =
          sqlite_file_local
            ⟨"deadbeef", "name-two", "s3-bucket", "home-cache"⟩ ∧
        sqlite_file ⟨"deadbeef", "name-one", "s3-bucket", "home-cache"⟩ =
          "s3-bucket" ++ "/" ++ ("deadbeef" ++ ".lndb")) :=
  ⟨⟨rfl, rfl, rfl⟩,
    sqlite_paths_deterministic
      ⟨"deadbeef", "name-one", "s3-bucket", "home-cache"⟩
      ⟨"deadbeef", "name-two", "s3-bucket", "home-cache"⟩ rfl rfl rfl⟩

/-- C10: for a cloud-SQLite instance whose sqlite file exists, `_load_db`
with `do_not_lock_for_laminapp_admin = True` and user handle
`laminapp-admin` syncs the local sqlite file down without locking (no lock
attempt in the trace, which gains at most a download); for every other user,
or when the flag is false, the load locks first (the trace gains the lock
attempt before any download). -/
theorem load_db_locks_except_laminapp_admin (legacy flag : Bool)
    (handle ident : String) (userInfo : Option (String × String)) (s : St)
    (hremote : s.remote.isSome = true) :
    ((flag = true ∧ handle = "laminapp-admin") →
        load_db true legacy true flag handle ident userInfo s =
          (synchronize s, .loaded)) ∧
      ((flag = false ∨ handle ≠ "laminapp-admin") →
        ((load_db true legacy true flag handle ident userInfo s).1.log =
            s.log ++ [.lockE] ∨
          (load_db true legacy true flag handle ident userInfo s).1.log =
            s.log ++ [.lockE, .downloadE])) ∧
      ((synchronize s).log = s.log ∨
        (synchronize s).log = s.log ++ [.downloadE]) := by
  obtain ⟨r, hr⟩ := Option.isSome_iff_exists.mp hremote
  refine ⟨?_, ?_, synchronize_log s⟩
  · rintro ⟨hf, hh⟩
    subst hf hh
    simp [load_db, hr, update_local_sqlite_file]
  · intro hcond
    have hflag : (true && (!flag || handle != "laminapp-admin")) = true := by
      rcases hcond with hf | hh
      · subst hf; simp
      · simp [hh]
    simp only [load_db, hr, Option.isNone_some, Bool.and_false, if_false,
      Bool.true_and] at *
    rw [hflag]
    rcases hcheck : check_sqlite_lock userInfo (lockOp ident s) with _ | m
    · rcases synchronize_log (lockOp ident s) with hs | hs <;>
        simp [update_local_sqlite_file, hcheck, hs, lockOp_log,
          List.append_assoc]
    · simp [update_local_sqlite_file, hcheck, lockOp_log]

/-- Witness for C10 at the admin scenario on the concrete grantable state. -/
theorem load_db_locks_except_laminapp_admin_witness :
    grantSt.remote.isSome = true ∧
      (((true = true ∧ "laminapp-admin" = "laminapp-admin") →
          load_db true false true true "laminapp-admin" "alice" none grantSt =
            (synchronize grantSt, .loaded)) ∧
        ((true = false ∨ "laminapp-admin" ≠ "laminapp-admin") →
          ((load_db true false true true "laminapp-admin" "alice" none
                grantSt).1.log = grantSt.log ++ [.lockE] ∨
            (load_db true false true true "laminapp-admin" "alice" none
                grantSt).1.log = grantSt.log ++ [.lockE, .downloadE])) ∧
        ((synchronize grantSt).log = grantSt.log ∨
          (synchronize grantSt).log = grantSt.log ++ [.downloadE])) :=
  ⟨rfl,
    load_db_locks_except_laminapp_admin false true "laminapp-admin" "alice"
      none grantSt rfl⟩

end Lndb
